import Mathlib

/-!
Verification development for the sparse compressed tensor representation
implemented in aten/src/ATen/SparseCsrTensorImpl.cpp.

The embedding models a backing tensor as its shape, element type, device and
flat row-major storage content.  Storage cells are values of type
`Option Int`: `none` stands for an uninitialized cell (fresh allocations and
the memory appended by an in-place resize are uninitialized), `some v` for a
cell holding `v`.  The sparse tensor implementation object holds its layout
tag, declared value type, device, the three backing buffers, the logical
shape, and the flag recording whether the shape is symbolic.

Mutating operations follow the C++ sources statement by statement.  A
`TORCH_CHECK` failure is modelled by returning the error together with the
state the object has at the throw point, so that partial mutation before a
failed check is observable, exactly as it is through the C++ exception.
-/

set_option autoImplicit false

namespace SparseCsr

/-- Device tag: the two backends the dispatch keys map to. -/
inductive Device where
  | cpu
  | cuda
deriving DecidableEq, Repr

/-- Element type tags used by the representation (indices are Int buffers). -/
inductive ScalarType where
  | int32
  | int64
  | float32
  | float64
deriving DecidableEq, Repr

/-- The four compressed layouts. -/
inductive Layout where
  | sparseCsr
  | sparseCsc
  | sparseBsr
  | sparseBsc
deriving DecidableEq, Repr

/-- Dispatch key sets that reach the empty constructor, abstracted to the one
key that decides the device. -/
inductive DispatchKey where
  | sparseCsrCPU
  | sparseCsrCUDA
  | other
deriving DecidableEq, Repr

/-- Error taxonomy of the component, one constructor per check site family. -/
inductive CsrError where
  | invalidDeviceTag
  | deviceMismatch
  | typeMismatch
  | invalidArgument
  | unsupportedOnSymbolicShape
  | unsupportedOperation
deriving DecidableEq, Repr

/-- Memory format argument of the contiguity query. -/
inductive MemoryFormat where
  | contiguous
  | preserve
deriving DecidableEq, Repr

/-- Number of elements of a shape: the product of its extents. -/
def numel (shape : List Nat) : Nat := shape.prod

/-- A backing tensor: shape, element type, device and flat row-major storage.
A storage cell is `none` when uninitialized. -/
structure Tensor where
  shape : List Nat
  dtype : ScalarType
  device : Device
  data : List (Option Int)
deriving DecidableEq, Repr

/-- Fresh allocation: every cell uninitialized, as with at.empty. -/
def Tensor.empty (shape : List Nat) (dtype : ScalarType) (device : Device) : Tensor :=
  { shape := shape, dtype := dtype, device := device,
    data := List.replicate (numel shape) none }

/-- Allocation shaped, typed and device-matched to a template, content
uninitialized: the model of at.empty_like. -/
def Tensor.empty_like (src : Tensor) : Tensor :=
  Tensor.empty src.shape src.dtype src.device

/-- Storage content after an in-place resize to n cells: cell i keeps the old
cell i while it exists, cells past the old length are uninitialized.  This is
the flat reinterpretation semantics of Tensor.resize_. -/
def resizeData (data : List (Option Int)) (n : Nat) : List (Option Int) :=
  (List.range n).map (fun i => data.getD i none)

/-- In-place resize of a tensor: new shape, storage reinterpreted flat. -/
def Tensor.resize (t : Tensor) (newShape : List Nat) : Tensor :=
  { t with shape := newShape, data := resizeData t.data (numel newShape) }

/-- The model of t.narrow(-1, start, len).fill_(v): along the last axis, the
cells with last-axis position in [start, start+len) are set to v in every
batch; on flat storage these are the positions i with i % L in that window,
where L is the last-axis extent. -/
def Tensor.narrowFillLast (t : Tensor) (start len : Nat) (v : Int) : Tensor :=
  let L := t.shape.getLastD 1
  let filled := (List.range t.data.length).map
    (fun i => if start ≤ i % L ∧ i % L < start + len then some v else t.data.getD i none)
  { t with data := filled }

/-- The model of t.zero_(): every cell becomes zero. -/
def Tensor.zero (t : Tensor) : Tensor :=
  { t with data := List.replicate t.data.length (some 0) }

/-- The sparse compressed tensor implementation object. -/
structure SparseCsrTensorImpl where
  layout : Layout
  dtype : ScalarType
  device : Device
  crow_indices : Tensor
  col_indices : Tensor
  values : Tensor
  sizes : List Nat
  has_symbolic_sizes_strides : Bool
deriving DecidableEq, Repr

/-- Device lookup from the dispatch key set (lines 12 to 22 of the source):
SparseCsrCPU maps to cpu, SparseCsrCUDA to cuda, anything else fails. -/
def SparseCsrTensorSetToDeviceType (k : DispatchKey) : Except CsrError Device :=
  match k with
  | .sparseCsrCPU => Except.ok Device.cpu
  | .sparseCsrCUDA => Except.ok Device.cuda
  | .other => Except.error CsrError.invalidDeviceTag

/-- Full construction from caller supplied buffers (lines 53 to 78): the
object is initialized from the buffers, the logical shape starts as the
default one dimensional shape of extent zero, and the two device checks run
in the constructor body; a failure destroys the object, so no partial state
is observable and the result is an Except. -/
def mkFull (dtype : ScalarType) (crow col vals : Tensor) (layout : Layout) :
    Except CsrError SparseCsrTensorImpl :=
  if vals.device ≠ crow.device then Except.error CsrError.deviceMismatch
  else if vals.device ≠ col.device then Except.error CsrError.deviceMismatch
  else Except.ok
    { layout := layout, dtype := dtype, device := vals.device,
      crow_indices := crow, col_indices := col, values := vals,
      sizes := [0], has_symbolic_sizes_strides := false }

/-- Empty construction (lines 25 to 51): map the key set to a device, then
delegate to the full constructor with three fresh length-zero buffers, the
index buffers typed int32 and the values buffer typed with the declared
value type. -/
def emptyCtor (key : DispatchKey) (layout : Layout) (dtype : ScalarType) :
    Except CsrError SparseCsrTensorImpl := do
  let dev ← SparseCsrTensorSetToDeviceType key
  mkFull dtype (Tensor.empty [0] ScalarType.int32 dev)
    (Tensor.empty [0] ScalarType.int32 dev)
    (Tensor.empty [0] dtype dev) layout

/-- The value of the empty construction on a given device: three fresh
length-zero buffers and the default logical shape. -/
def emptyOnDevice (dev : Device) (layout : Layout) (dtype : ScalarType) :
    SparseCsrTensorImpl :=
  { layout := layout, dtype := dtype, device := dev,
    crow_indices := Tensor.empty [0] ScalarType.int32 dev,
    col_indices := Tensor.empty [0] ScalarType.int32 dev,
    values := Tensor.empty [0] dtype dev,
    sizes := [0], has_symbolic_sizes_strides := false }

namespace SparseCsrTensorImpl

/-- Modelled from the spec: the batch_dim accessor of the implementation
object is declared in SparseCsrTensorImpl.h, which is not among the sources.
Per the data model, compressedIndices is a sequence of length batchShape
followed by one structural axis, so the batch rank is the rank of the
compressed index buffer minus one. -/
def batch_dim (self : SparseCsrTensorImpl) : Nat :=
  self.crow_indices.shape.length - 1

/-- Shape preserving resize (lines 84 to 105).  The result pairs the error,
if a check fired, with the state of the object at that point. -/
def resize_ (self : SparseCsrTensorImpl) (nnz : Nat) (size : List Nat) :
    Option CsrError × SparseCsrTensorImpl :=
  if self.has_symbolic_sizes_strides = true then
    (some CsrError.unsupportedOnSymbolicShape, self)
  else
    let rows := size.getD (size.length - 2) 0
    let cols := size.getD (size.length - 1) 0
    let old_crow_indices_size := self.crow_indices.shape.getLastD 0
    let new_crow_indices_size := size.take (size.length - 2) ++ [rows + 1]
    let crow1 := self.crow_indices.resize new_crow_indices_size
    let crow2 :=
      if old_crow_indices_size ≤ rows + 1 then
        crow1.narrowFillLast old_crow_indices_size (rows + 1 - old_crow_indices_size)
          (nnz : Int)
      else
        crow1.narrowFillLast rows 1 ((min nnz (rows * cols) : Nat) : Int)
    let col_indices_values_size := size.take (size.length - 2) ++ [min nnz (rows * cols)]
    (none,
      { self with
        crow_indices := crow2,
        col_indices := self.col_indices.resize col_indices_values_size,
        values := self.values.resize col_indices_values_size,
        sizes := size })

/-- Destructive resize (lines 107 to 146). -/
def resize_and_clear_ (self : SparseCsrTensorImpl) (sparse_dim : Int)
    (size : List Nat) : Option CsrError × SparseCsrTensorImpl :=
  if self.has_symbolic_sizes_strides = true then
    (some CsrError.unsupportedOnSymbolicShape, self)
  else if sparse_dim < 2 then (some CsrError.invalidArgument, self)
  else if (size.length : Int) < sparse_dim then (some CsrError.invalidArgument, self)
  else
    let bd := (sparse_dim - 2).toNat
    let batchsize := size.take bd
    let densesize := size.drop (bd + 2)
    let values_size0 := batchsize ++ [0] ++ densesize
    let col_indices_size := batchsize ++ [0]
    let n0 : Nat :=
      match self.layout with
      | Layout.sparseCsr | Layout.sparseBsr => size.getD bd 0
      | Layout.sparseCsc | Layout.sparseBsc => size.getD (bd + 1) 0
    let blocksize := (self.values.shape.drop (self.batch_dim + 1)).take 2
    let values_size :=
      match self.layout with
      | Layout.sparseCsr | Layout.sparseCsc => values_size0
      | Layout.sparseBsr | Layout.sparseBsc => values_size0 ++ blocksize
    let n_compressed_indices :=
      match self.layout with
      | Layout.sparseCsr | Layout.sparseCsc => n0
      | Layout.sparseBsr => n0 / blocksize.getD 0 0
      | Layout.sparseBsc => n0 / blocksize.getD 1 0
    let crow_indices_size := batchsize ++ [n_compressed_indices + 1]
    (none,
      { self with
        crow_indices := (self.crow_indices.resize crow_indices_size).zero,
        col_indices := self.col_indices.resize col_indices_size,
        values := self.values.resize values_size,
        sizes := size })

/-- Re-templating from a source instance (lines 148 to 167). -/
def resize_as_sparse_csr_tensor_ (self src : SparseCsrTensorImpl) :
    Option CsrError × SparseCsrTensorImpl :=
  if self.has_symbolic_sizes_strides = true then
    (some CsrError.unsupportedOnSymbolicShape, self)
  else
    (none,
      { self with
        layout := src.layout,
        crow_indices := Tensor.empty_like src.crow_indices,
        col_indices := Tensor.empty_like src.col_indices,
        values := Tensor.empty_like src.values,
        sizes := src.sizes })

/-- Member replacement (lines 169 to 199).  The value type check runs before
any assignment; the device checks run after the three buffers and the sizes
have already been replaced, so a device mismatch leaves the new buffers in
place. -/
def set_member_tensors (self : SparseCsrTensorImpl)
    (crow col vals : Tensor) (size : List Nat) :
    Option CsrError × SparseCsrTensorImpl :=
  if self.has_symbolic_sizes_strides = true then
    (some CsrError.unsupportedOnSymbolicShape, self)
  else if vals.dtype ≠ self.dtype then (some CsrError.typeMismatch, self)
  else
    let self1 :=
      { self with
        crow_indices := crow, col_indices := col, values := vals, sizes := size }
    if vals.device ≠ crow.device then (some CsrError.deviceMismatch, self1)
    else if vals.device ≠ col.device then (some CsrError.deviceMismatch, self1)
    else (none, self1)

/-- Strides query (lines 201 to 203): always rejected. -/
def strides_custom (self : SparseCsrTensorImpl) : Except CsrError (List Nat) :=
  Except.error CsrError.unsupportedOperation

/-- Symbolic strides query (lines 204 to 206): always rejected. -/
def sym_strides_custom (self : SparseCsrTensorImpl) : Except CsrError (List Int) :=
  Except.error CsrError.unsupportedOperation

/-- Element-level size mutation (lines 207 to 209): always rejected. -/
def set_size (self : SparseCsrTensorImpl) (dim new_size : Nat) :
    Except CsrError SparseCsrTensorImpl :=
  Except.error CsrError.unsupportedOperation

/-- Element-level stride mutation (lines 210 to 212): always rejected. -/
def set_stride (self : SparseCsrTensorImpl) (dim new_stride : Nat) :
    Except CsrError SparseCsrTensorImpl :=
  Except.error CsrError.unsupportedOperation

/-- Storage offset mutation (lines 213 to 215): always rejected. -/
def set_storage_offset (self : SparseCsrTensorImpl) (offset : Nat) :
    Except CsrError SparseCsrTensorImpl :=
  Except.error CsrError.unsupportedOperation

/-- Contiguity query (lines 216 to 218): always rejected. -/
def is_contiguous_custom (self : SparseCsrTensorImpl) (mf : MemoryFormat) :
    Except CsrError Bool :=
  Except.error CsrError.unsupportedOperation

end SparseCsrTensorImpl

/-! Concrete instances used by witnesses and counterexamples. -/

/-- A plain CSR instance as produced by empty construction on cpu/float32. -/
def egBase : SparseCsrTensorImpl :=
  emptyOnDevice Device.cpu Layout.sparseCsr ScalarType.float32

/-- The same instance with a symbolic shape flag. -/
def egSym : SparseCsrTensorImpl :=
  { egBase with has_symbolic_sizes_strides := true }

/-- A crow buffer on four actual rows, used for the shrinking resize witness. -/
def egShrink : SparseCsrTensorImpl :=
  { egBase with
    crow_indices :=
      { shape := [5], dtype := ScalarType.int32, device := Device.cpu,
        data := [some 0, some 1, some 2, some 3, some 4] } }

/-- An unbatched CSR instance whose compressed index buffer holds 0, 2, 5. -/
def egGrow : SparseCsrTensorImpl :=
  { egBase with
    crow_indices :=
      { shape := [3], dtype := ScalarType.int32, device := Device.cpu,
        data := [some 0, some 2, some 5] } }

/-- A batched CSR instance: two batches with compressed index rows 0, 2, 5
and 0, 1, 3. -/
def egBatch : SparseCsrTensorImpl :=
  { egBase with
    crow_indices :=
      { shape := [2, 3], dtype := ScalarType.int32, device := Device.cpu,
        data := [some 0, some 2, some 5, some 0, some 1, some 3] },
    col_indices :=
      { shape := [2, 5], dtype := ScalarType.int32, device := Device.cpu,
        data := List.replicate 10 (some 0) },
    values :=
      { shape := [2, 5], dtype := ScalarType.float32, device := Device.cpu,
        data := List.replicate 10 (some 1) },
    sizes := [2, 2, 4] }

/-- A BSR instance with block shape 2 by 2, as in the spec scenario. -/
def egBsr : SparseCsrTensorImpl :=
  { egBase with
    layout := Layout.sparseBsr,
    crow_indices :=
      { shape := [3], dtype := ScalarType.int32, device := Device.cpu,
        data := [some 0, some 1, some 2] },
    col_indices :=
      { shape := [2], dtype := ScalarType.int32, device := Device.cpu,
        data := [some 0, some 1] },
    values :=
      { shape := [2, 2, 2], dtype := ScalarType.float32, device := Device.cpu,
        data := List.replicate 8 (some 1) },
    sizes := [4, 4] }

/-- A BSR instance with block shape 2 by 3, whose destructive resize is asked
for a dense tail. -/
def egBsrDense : SparseCsrTensorImpl :=
  { egBase with
    layout := Layout.sparseBsr,
    crow_indices :=
      { shape := [3], dtype := ScalarType.int32, device := Device.cpu,
        data := [some 0, some 2, some 5] },
    col_indices :=
      { shape := [5], dtype := ScalarType.int32, device := Device.cpu,
        data := List.replicate 5 (some 0) },
    values :=
      { shape := [5, 2, 3], dtype := ScalarType.float32, device := Device.cpu,
        data := List.replicate 30 (some 1) },
    sizes := [6, 6] }

/-- A CSC source instance used as a re-templating template. -/
def egSrc : SparseCsrTensorImpl :=
  { layout := Layout.sparseCsc, dtype := ScalarType.float64, device := Device.cpu,
    crow_indices :=
      { shape := [4], dtype := ScalarType.int64, device := Device.cpu,
        data := [some 0, some 1, some 2, some 3] },
    col_indices :=
      { shape := [3], dtype := ScalarType.int64, device := Device.cpu,
        data := [some 0, some 0, some 1] },
    values :=
      { shape := [3], dtype := ScalarType.float64, device := Device.cpu,
        data := [some 2, some 3, some 4] },
    sizes := [3, 3], has_symbolic_sizes_strides := false }

/-- Replacement index buffer living on cpu. -/
def tCrowCpu : Tensor :=
  { shape := [3], dtype := ScalarType.int32, device := Device.cpu,
    data := [some 0, some 1, some 2] }

/-- Replacement plain index buffer living on cpu. -/
def tColCpu : Tensor :=
  { shape := [2], dtype := ScalarType.int32, device := Device.cpu,
    data := [some 0, some 1] }

/-- Replacement values buffer with the wrong element type. -/
def tValsWrongType : Tensor :=
  { shape := [2], dtype := ScalarType.float64, device := Device.cpu,
    data := [some 3, some 4] }

/-- Replacement values buffer with the right element type on another device. -/
def tValsCuda : Tensor :=
  { shape := [2], dtype := ScalarType.float32, device := Device.cuda,
    data := [some 3, some 4] }

/-! Helper lemmas about storage content. -/

theorem getD_range_map (n i : Nat) (f : Nat → Option Int) :
    ((List.range n).map f).getD i none = if i < n then f i else none := by
  by_cases h : i < n
  · simp [List.getD_eq_getElem?_getD, List.getElem?_map, List.getElem?_range h, h]
  · have hlen : (List.range n).length ≤ i := by simpa using Nat.not_lt.mp h
    simp [List.getD_eq_getElem?_getD, List.getElem?_map, h, List.getElem?_eq_none hlen]

theorem resizeData_length (d : List (Option Int)) (n : Nat) :
    (resizeData d n).length = n := by
  simp [resizeData]

theorem resizeData_getD (d : List (Option Int)) (n i : Nat) :
    (resizeData d n).getD i none = if i < n then d.getD i none else none :=
  getD_range_map n i _

theorem numel_append_singleton (xs : List Nat) (k : Nat) :
    numel (xs ++ [k]) = numel xs * k := by
  simp [numel]

theorem getD_drop_take (l : List Nat) (k j : Nat) (hj : j < 2) :
    ((l.drop k).take 2).getD j 0 = l.getD (k + j) 0 := by
  simp [List.getD_eq_getElem?_getD, List.getElem?_take, List.getElem?_drop, hj]

theorem getD_at_append (xs : List Nat) (y : Nat) (ys : List Nat) (d n : Nat)
    (h : n = xs.length) : (xs ++ y :: ys).getD n d = y := by
  subst h
  rw [List.getD_append_right _ _ _ _ (le_refl xs.length)]
  simp

theorem resize_crow_getD (self : SparseCsrTensorImpl) (nnz : Nat) (size : List Nat)
    (i : Nat)
    (hsym : self.has_symbolic_sizes_strides = false)
    (hi : i < numel (size.take (size.length - 2)) * (size.getD (size.length - 2) 0 + 1)) :
    ((self.resize_ nnz size).2).crow_indices.data.getD i none =
      if self.crow_indices.shape.getLastD 0 ≤ size.getD (size.length - 2) 0 + 1 then
        (if self.crow_indices.shape.getLastD 0 ≤ i % (size.getD (size.length - 2) 0 + 1)
         then some (nnz : Int)
         else self.crow_indices.data.getD i none)
      else
        (if i % (size.getD (size.length - 2) 0 + 1) = size.getD (size.length - 2) 0
         then some ((min nnz
             (size.getD (size.length - 2) 0 * size.getD (size.length - 1) 0) : Nat) : Int)
         else self.crow_indices.data.getD i none) := by
  unfold SparseCsrTensorImpl.resize_
  rw [if_neg (by simp [hsym])]
  dsimp only [Tensor.narrowFillLast, Tensor.resize]
  rw [List.getLastD_concat]
  have hlen : (resizeData self.crow_indices.data
      (numel (size.take (size.length - 2) ++ [size.getD (size.length - 2) 0 + 1]))).length =
      numel (size.take (size.length - 2)) * (size.getD (size.length - 2) 0 + 1) := by
    rw [resizeData_length, numel_append_singleton]
  have hmod : i % (size.getD (size.length - 2) 0 + 1) < size.getD (size.length - 2) 0 + 1 :=
    Nat.mod_lt _ (Nat.succ_pos _)
  split_ifs with hgrow hc hc
  · rw [hlen, getD_range_map, if_pos hi, if_pos ⟨hc, by
      rw [Nat.add_sub_cancel' hgrow]; exact hmod⟩]
  · rw [hlen, getD_range_map, if_pos hi, if_neg (fun h => hc h.1),
      resizeData_getD, numel_append_singleton, if_pos hi]
  · rw [hlen, getD_range_map, if_pos hi, if_pos ⟨Nat.le_of_eq hc.symm, by omega⟩]
  · rw [hlen, getD_range_map, if_pos hi,
      if_neg (fun h => hc (Nat.le_antisymm (Nat.lt_succ_iff.mp hmod) h.1)),
      resizeData_getD, numel_append_singleton, if_pos hi]

/-! Claim theorems. -/

/-- C4 (amended): empty construction on a given device and value type yields a
compressedIndices buffer of length [0] with no stored value (uninitialized
content of size zero), a plainIndices buffer of length [0] and a values buffer
of length [0]; through the dispatch key entry point the same object is built
on the mapped device. -/
theorem empty_construction_buffers (dev : Device) (layout : Layout) (dt : ScalarType) :
    (emptyOnDevice dev layout dt).crow_indices.shape = [0] ∧
    (emptyOnDevice dev layout dt).crow_indices.data = [] ∧
    (emptyOnDevice dev layout dt).col_indices.shape = [0] ∧
    (emptyOnDevice dev layout dt).col_indices.data = [] ∧
    (emptyOnDevice dev layout dt).values.shape = [0] ∧
    (emptyOnDevice dev layout dt).values.data = [] ∧
    emptyCtor DispatchKey.sparseCsrCPU layout dt =
      Except.ok (emptyOnDevice Device.cpu layout dt) ∧
    emptyCtor DispatchKey.sparseCsrCUDA layout dt =
      Except.ok (emptyOnDevice Device.cuda layout dt) :=
  ⟨rfl, rfl, rfl, rfl, rfl, rfl, rfl, rfl⟩

/-- C4 counterexample: the empty CSR construction on cpu/float32 has a
compressed index buffer of length [0] holding nothing, not the claimed
length [1] buffer holding the value [0]. -/
theorem empty_construction_crow_is_length_zero :
    (emptyOnDevice Device.cpu Layout.sparseCsr ScalarType.float32).crow_indices.shape = [0] ∧
    (emptyOnDevice Device.cpu Layout.sparseCsr ScalarType.float32).crow_indices.data = [] ∧
    ([0] : List Nat) ≠ [1] := by
  exact ⟨rfl, rfl, by decide⟩

/-- C7 (confirmed): strides queries, element-level size and stride mutation,
storage offset mutation and contiguity queries on any instance fail with
UnsupportedOperation instead of returning a default. -/
theorem dense_queries_rejected (self : SparseCsrTensorImpl)
    (d n d2 m off : Nat) (mf : MemoryFormat) :
    self.strides_custom = Except.error CsrError.unsupportedOperation ∧
    self.sym_strides_custom = Except.error CsrError.unsupportedOperation ∧
    self.set_size d n = Except.error CsrError.unsupportedOperation ∧
    self.set_stride d2 m = Except.error CsrError.unsupportedOperation ∧
    self.set_storage_offset off = Except.error CsrError.unsupportedOperation ∧
    self.is_contiguous_custom mf = Except.error CsrError.unsupportedOperation :=
  ⟨rfl, rfl, rfl, rfl, rfl, rfl⟩

/-- C1 (amended): a setMembers call that fails with TypeMismatch leaves the
previous buffers and logical shape untouched, because the value type check
runs before any assignment; a call that fails with DeviceMismatch does NOT
leave them untouched: the three buffers and the logical shape have already
been replaced with the new members when the device check fires. -/
theorem set_member_tensors_failure_states (self : SparseCsrTensorImpl)
    (crow col vals : Tensor) (size : List Nat)
    (hsym : self.has_symbolic_sizes_strides = false) :
    (vals.dtype ≠ self.dtype →
      self.set_member_tensors crow col vals size = (some CsrError.typeMismatch, self)) ∧
    (vals.dtype = self.dtype →
      (vals.device ≠ crow.device ∨ vals.device ≠ col.device) →
      (self.set_member_tensors crow col vals size).1 = some CsrError.deviceMismatch ∧
      (self.set_member_tensors crow col vals size).2 =
        { self with
          crow_indices := crow, col_indices := col, values := vals, sizes := size }) := by
  constructor
  · intro hdt
    simp [SparseCsrTensorImpl.set_member_tensors, hsym, hdt]
  · intro hdt hdev
    rcases hdev with hdev | hdev
    · constructor <;> simp [SparseCsrTensorImpl.set_member_tensors, hsym, hdt, hdev]
    · by_cases h1 : vals.device = crow.device
      · have h2 : crow.device ≠ col.device := by rw [← h1]; exact hdev
        constructor <;>
          simp [SparseCsrTensorImpl.set_member_tensors, hsym, hdt, h1, h2]
      · constructor <;>
          simp [SparseCsrTensorImpl.set_member_tensors, hsym, hdt, h1]

/-- Witness for the amended C1 theorem at concrete inputs: a wrong value type
leaves the cpu/float32 base instance unchanged, and a values buffer on cuda
fails the device check only after the members were replaced. -/
theorem set_member_tensors_failure_states_witness :
    egBase.set_member_tensors tCrowCpu tColCpu tValsWrongType [2, 2] =
      (some CsrError.typeMismatch, egBase) ∧
    (egBase.set_member_tensors tCrowCpu tColCpu tValsCuda [2, 2]).1 =
      some CsrError.deviceMismatch ∧
    (egBase.set_member_tensors tCrowCpu tColCpu tValsCuda [2, 2]).2 =
      { egBase with
        crow_indices := tCrowCpu, col_indices := tColCpu,
        values := tValsCuda, sizes := [2, 2] } := by
  have h1 := set_member_tensors_failure_states egBase tCrowCpu tColCpu tValsWrongType [2, 2] rfl
  have h2 := set_member_tensors_failure_states egBase tCrowCpu tColCpu tValsCuda [2, 2] rfl
  have h2d := h2.2 rfl (Or.inl (by decide))
  exact ⟨h1.1 (by decide), h2d.1, h2d.2⟩

/-- C1 counterexample: with a cpu instance and a values buffer on cuda, the
call fails with DeviceMismatch yet the instance does not keep its previous
compressedIndices or logicalShape: both were already replaced. -/
theorem set_member_tensors_device_mismatch_mutates :
    (egBase.set_member_tensors tCrowCpu tColCpu tValsCuda [2, 2]).1 =
      some CsrError.deviceMismatch ∧
    (egBase.set_member_tensors tCrowCpu tColCpu tValsCuda [2, 2]).2.crow_indices ≠
      egBase.crow_indices ∧
    (egBase.set_member_tensors tCrowCpu tColCpu tValsCuda [2, 2]).2.sizes ≠
      egBase.sizes := by
  decide

/-- C8 (confirmed): on a concrete-shape instance, a destructive resize whose
sparse dimensionality is below two or whose shape is shorter than the sparse
dimensionality fails with InvalidArgument and leaves the instance unchanged,
the checks running before any mutation. -/
theorem resize_and_clear_invalid_argument (self : SparseCsrTensorImpl)
    (sparse_dim : Int) (size : List Nat)
    (hsym : self.has_symbolic_sizes_strides = false)
    (hviol : sparse_dim < 2 ∨ (size.length : Int) < sparse_dim) :
    self.resize_and_clear_ sparse_dim size = (some CsrError.invalidArgument, self) := by
  by_cases h1 : sparse_dim < 2
  · simp [SparseCsrTensorImpl.resize_and_clear_, hsym, h1]
  · rcases hviol with h | h
    · exact absurd h h1
    · simp [SparseCsrTensorImpl.resize_and_clear_, hsym, h1, h]

/-- Witness for C8: sparse dimensionality 1 is rejected, and so is a shape
shorter than the requested sparse dimensionality. -/
theorem resize_and_clear_invalid_argument_witness :
    egBase.resize_and_clear_ 1 [4, 4] = (some CsrError.invalidArgument, egBase) ∧
    egBase.resize_and_clear_ 3 [4, 4] = (some CsrError.invalidArgument, egBase) := by
  have h1 := resize_and_clear_invalid_argument egBase 1 [4, 4] rfl (Or.inl (by decide))
  have h2 := resize_and_clear_invalid_argument egBase 3 [4, 4] rfl (Or.inr (by decide))
  exact ⟨h1, h2⟩

/-- C10 (confirmed): each of the four mutating operations rejects an instance
whose shape is symbolic, returning the symbolic shape error with the instance
completely unmodified. -/
theorem mutators_reject_symbolic (self src : SparseCsrTensorImpl)
    (crow col vals : Tensor) (nnz : Nat) (sparse_dim : Int)
    (size size2 size3 : List Nat)
    (h : self.has_symbolic_sizes_strides = true) :
    self.resize_ nnz size = (some CsrError.unsupportedOnSymbolicShape, self) ∧
    self.resize_and_clear_ sparse_dim size2 =
      (some CsrError.unsupportedOnSymbolicShape, self) ∧
    self.resize_as_sparse_csr_tensor_ src =
      (some CsrError.unsupportedOnSymbolicShape, self) ∧
    self.set_member_tensors crow col vals size3 =
      (some CsrError.unsupportedOnSymbolicShape, self) := by
  refine ⟨?_, ?_, ?_, ?_⟩
  · simp [SparseCsrTensorImpl.resize_, h]
  · simp [SparseCsrTensorImpl.resize_and_clear_, h]
  · simp [SparseCsrTensorImpl.resize_as_sparse_csr_tensor_, h]
  · simp [SparseCsrTensorImpl.set_member_tensors, h]

/-- Witness for C10 on a concrete symbolic-shape instance. -/
theorem mutators_reject_symbolic_witness :
    egSym.resize_ 3 [4, 4] = (some CsrError.unsupportedOnSymbolicShape, egSym) ∧
    egSym.resize_and_clear_ 2 [4, 4] =
      (some CsrError.unsupportedOnSymbolicShape, egSym) ∧
    egSym.resize_as_sparse_csr_tensor_ egSrc =
      (some CsrError.unsupportedOnSymbolicShape, egSym) ∧
    egSym.set_member_tensors tCrowCpu tColCpu tValsCuda [2, 2] =
      (some CsrError.unsupportedOnSymbolicShape, egSym) :=
  mutators_reject_symbolic egSym egSrc tCrowCpu tColCpu tValsCuda 3 2 [4, 4] [4, 4] [2, 2] rfl

/-- C9 (confirmed): after re-templating from a source instance, the layout tag
equals the source layout, each of the three buffers is a fresh allocation whose
shape, element type and device match the corresponding source buffer with
every cell uninitialized, and the logical shape equals the source shape. -/
theorem resize_as_template_matches_source (self src : SparseCsrTensorImpl)
    (hsym : self.has_symbolic_sizes_strides = false) :
    (self.resize_as_sparse_csr_tensor_ src).1 = none ∧
    (self.resize_as_sparse_csr_tensor_ src).2.layout = src.layout ∧
    (self.resize_as_sparse_csr_tensor_ src).2.crow_indices.shape =
      src.crow_indices.shape ∧
    (self.resize_as_sparse_csr_tensor_ src).2.crow_indices.dtype =
      src.crow_indices.dtype ∧
    (self.resize_as_sparse_csr_tensor_ src).2.crow_indices.device =
      src.crow_indices.device ∧
    (self.resize_as_sparse_csr_tensor_ src).2.crow_indices.data =
      List.replicate (numel src.crow_indices.shape) none ∧
    (self.resize_as_sparse_csr_tensor_ src).2.col_indices.shape =
      src.col_indices.shape ∧
    (self.resize_as_sparse_csr_tensor_ src).2.col_indices.dtype =
      src.col_indices.dtype ∧
    (self.resize_as_sparse_csr_tensor_ src).2.col_indices.device =
      src.col_indices.device ∧
    (self.resize_as_sparse_csr_tensor_ src).2.col_indices.data =
      List.replicate (numel src.col_indices.shape) none ∧
    (self.resize_as_sparse_csr_tensor_ src).2.values.shape = src.values.shape ∧
    (self.resize_as_sparse_csr_tensor_ src).2.values.dtype = src.values.dtype ∧
    (self.resize_as_sparse_csr_tensor_ src).2.values.device = src.values.device ∧
    (self.resize_as_sparse_csr_tensor_ src).2.values.data =
      List.replicate (numel src.values.shape) none ∧
    (self.resize_as_sparse_csr_tensor_ src).2.sizes = src.sizes := by
  refine ⟨?_, ?_, ?_, ?_, ?_, ?_, ?_, ?_, ?_, ?_, ?_, ?_, ?_, ?_, ?_⟩ <;>
    simp [SparseCsrTensorImpl.resize_as_sparse_csr_tensor_, hsym,
      Tensor.empty_like, Tensor.empty]

/-- C2 (amended): after resize(nnz, newShape) with rows = newShape[-2] and
cols = newShape[-1], provided rows plus one differs from the previous
compressed-index last-axis length, the last entry along the last axis of
compressedIndices in every batch equals min(nnz, rows times cols) when the
buffer shrinks (rows plus one below the old length), and equals nnz without
clamping when it grows. -/
theorem resize_last_entry_per_batch (self : SparseCsrTensorImpl) (nnz : Nat)
    (size : List Nat) (b : Nat)
    (hsym : self.has_symbolic_sizes_strides = false)
    (hb : b < numel (size.take (size.length - 2)))
    (hneq : self.crow_indices.shape.getLastD 0 ≠ size.getD (size.length - 2) 0 + 1) :
    ((self.resize_ nnz size).2).crow_indices.data.getD
        (b * (size.getD (size.length - 2) 0 + 1) + size.getD (size.length - 2) 0) none =
      if size.getD (size.length - 2) 0 + 1 < self.crow_indices.shape.getLastD 0
      then some ((min nnz
          (size.getD (size.length - 2) 0 * size.getD (size.length - 1) 0) : Nat) : Int)
      else some (nnz : Int) := by
  set rows := size.getD (size.length - 2) 0 with hrows
  set old := self.crow_indices.shape.getLastD 0 with hold
  have hlt : b * (rows + 1) + rows < numel (size.take (size.length - 2)) * (rows + 1) := by
    calc b * (rows + 1) + rows < b * (rows + 1) + (rows + 1) := by omega
      _ = (b + 1) * (rows + 1) := by ring
      _ ≤ numel (size.take (size.length - 2)) * (rows + 1) := Nat.mul_le_mul_right _ hb
  have hmod : (b * (rows + 1) + rows) % (rows + 1) = rows := by
    rw [Nat.mul_comm, Nat.add_comm, Nat.add_mul_mod_self_left]
    exact Nat.mod_eq_of_lt (Nat.lt_succ_self rows)
  rw [resize_crow_getD self nnz size _ hsym hlt]
  by_cases hgrow : old ≤ rows + 1
  · rw [if_pos hgrow, if_pos (by rw [hmod]; omega), if_neg (by omega)]
  · rw [if_neg hgrow, if_pos (by rw [hmod]), if_pos (by omega)]

/-- Witness for the amended C2 theorem: shrinking four actual rows to two
with nnz 10 clamps the final compressed-index entry to min(10, 6). -/
theorem resize_last_entry_per_batch_witness :
    ((egShrink.resize_ 10 [2, 3]).2).crow_indices.data.getD (0 * (2 + 1) + 2) none =
      if 2 + 1 < 5 then some ((min 10 (2 * 3) : Nat) : Int) else some (10 : Int) :=
  resize_last_entry_per_batch egShrink 10 [2, 3] 0 rfl (by decide) (by decide)

/-- C2 counterexample: growing the empty cpu instance to a 2 by 2 shape with
nnz 10 succeeds and leaves 10 as the last compressed-index entry, although
min(nnz, rows times cols) is 4: the growing branch does not clamp. -/
theorem resize_grow_last_entry_unclamped :
    (egBase.resize_ 10 [2, 2]).1 = none ∧
    ((egBase.resize_ 10 [2, 2]).2).crow_indices.data =
      [some 10, some 10, some 10] ∧
    some (10 : Int) ≠ some ((min 10 (2 * 2) : Nat) : Int) := by
  decide

/-- C5 (amended): for an unbatched new shape, a growing resize (rows plus one
at least the old last-axis length) preserves every previously existing
compressed-index entry at its position and writes nnz into each newly
appended tail position; with batch dimensions the storage is reinterpreted
flat, so entries are not preserved per batch. -/
theorem resize_grow_unbatched_preserves (self : SparseCsrTensorImpl)
    (nnz rows cols i : Nat)
    (hsym : self.has_symbolic_sizes_strides = false)
    (hgrow : self.crow_indices.shape.getLastD 0 ≤ rows + 1)
    (hi : i < rows + 1) :
    ((self.resize_ nnz [rows, cols]).2).crow_indices.data.getD i none =
      if i < self.crow_indices.shape.getLastD 0
      then self.crow_indices.data.getD i none
      else some (nnz : Int) := by
  have hn : i < numel (([rows, cols] : List Nat).take (([rows, cols] : List Nat).length - 2)) *
      (([rows, cols] : List Nat).getD (([rows, cols] : List Nat).length - 2) 0 + 1) := by
    simpa [numel] using hi
  rw [resize_crow_getD self nnz [rows, cols] i hsym hn]
  have e1 : ([rows, cols] : List Nat).getD (([rows, cols] : List Nat).length - 2) 0 = rows := rfl
  rw [e1, if_pos hgrow, Nat.mod_eq_of_lt hi]
  rcases Nat.lt_or_ge i (self.crow_indices.shape.getLastD 0) with h | h
  · rw [if_neg (by omega), if_pos h]
  · rw [if_pos h, if_neg (by omega)]

/-- Witness for the amended C5 theorem: growing the compressed-index buffer
0, 2, 5 from two rows to four with nnz 5 keeps entry 1 at 2 and writes 5
into appended position 4, giving 0, 2, 5, 5, 5. -/
theorem resize_grow_unbatched_preserves_witness :
    (((egGrow.resize_ 5 [4, 4]).2).crow_indices.data.getD 1 none =
      if 1 < egGrow.crow_indices.shape.getLastD 0
      then egGrow.crow_indices.data.getD 1 none else some (5 : Int)) ∧
    (((egGrow.resize_ 5 [4, 4]).2).crow_indices.data.getD 4 none =
      if 4 < egGrow.crow_indices.shape.getLastD 0
      then egGrow.crow_indices.data.getD 4 none else some (5 : Int)) :=
  ⟨resize_grow_unbatched_preserves egGrow 5 4 4 1 rfl (by decide) (by decide),
   resize_grow_unbatched_preserves egGrow 5 4 4 4 rfl (by decide) (by decide)⟩

/-- C5 counterexample: on a batched instance with per-batch compressed rows
0, 2, 5 and 0, 1, 3, growing rows two to four with nnz 5 yields flat storage
0, 2, 5, 5, 5, 3, uninitialized, uninitialized, 5, 5 instead of the claimed
preservation 0, 2, 5, 5, 5, 0, 1, 3, 5, 5: previously existing entries of the
second batch are overwritten or displaced by the flat reinterpretation. -/
theorem resize_grow_batched_not_preserved :
    egBatch.crow_indices.data = [some 0, some 2, some 5, some 0, some 1, some 3] ∧
    (egBatch.resize_ 5 [2, 4, 4]).1 = none ∧
    ((egBatch.resize_ 5 [2, 4, 4]).2).crow_indices.data =
      [some 0, some 2, some 5, some 5, some 5, some 3, none, none, some 5, some 5] ∧
    ((egBatch.resize_ 5 [2, 4, 4]).2).crow_indices.data ≠
      [some 0, some 2, some 5, some 5, some 5, some 0, some 1, some 3, some 5, some 5] := by
  decide

/-- C3 (confirmed): a successful destructive resize leaves plainIndices and
values with entry count zero, and compressedIndices entirely zero filled with
last-axis length groups plus one, where groups is the extent of the structural
axis the layout compresses (row for CSR and BSR, column for CSC and BSC),
divided by the corresponding block edge, read from the current values buffer,
for the block layouts. -/
theorem resize_and_clear_clears (self : SparseCsrTensorImpl) (sparse_dim : Int)
    (size : List Nat) (bd : Nat)
    (hsym : self.has_symbolic_sizes_strides = false)
    (hsd : 2 ≤ sparse_dim)
    (hlen : sparse_dim ≤ (size.length : Int))
    (hbd : bd = (sparse_dim - 2).toNat) :
    (self.resize_and_clear_ sparse_dim size).1 = none ∧
    (self.resize_and_clear_ sparse_dim size).2.col_indices.shape =
      size.take bd ++ [0] ∧
    (self.resize_and_clear_ sparse_dim size).2.col_indices.data = [] ∧
    (self.resize_and_clear_ sparse_dim size).2.values.data = [] ∧
    (self.resize_and_clear_ sparse_dim size).2.values.shape.getD bd 0 = 0 ∧
    (self.layout = Layout.sparseCsr →
      (self.resize_and_clear_ sparse_dim size).2.crow_indices.shape =
        size.take bd ++ [size.getD bd 0 + 1]) ∧
    (self.layout = Layout.sparseCsc →
      (self.resize_and_clear_ sparse_dim size).2.crow_indices.shape =
        size.take bd ++ [size.getD (bd + 1) 0 + 1]) ∧
    (self.layout = Layout.sparseBsr →
      (self.resize_and_clear_ sparse_dim size).2.crow_indices.shape =
        size.take bd ++
          [size.getD bd 0 / self.values.shape.getD (self.batch_dim + 1) 0 + 1]) ∧
    (self.layout = Layout.sparseBsc →
      (self.resize_and_clear_ sparse_dim size).2.crow_indices.shape =
        size.take bd ++
          [size.getD (bd + 1) 0 / self.values.shape.getD (self.batch_dim + 2) 0 + 1]) ∧
    (self.resize_and_clear_ sparse_dim size).2.crow_indices.data =
      List.replicate
        (numel (self.resize_and_clear_ sparse_dim size).2.crow_indices.shape)
        (some 0) := by
  subst hbd
  have h1 : ¬ sparse_dim < 2 := not_lt.mpr hsd
  have h2 : ¬ ((size.length : Int) < sparse_dim) := not_lt.mpr hlen
  have htake : (size.take (sparse_dim - 2).toNat).length = (sparse_dim - 2).toNat := by
    rw [List.length_take]; omega
  refine ⟨?_, ?_, ?_, ?_, ?_, ?_, ?_, ?_, ?_, ?_⟩
  · simp [SparseCsrTensorImpl.resize_and_clear_, hsym, h1, h2]
  · simp [SparseCsrTensorImpl.resize_and_clear_, hsym, h1, h2, Tensor.resize]
  · simp [SparseCsrTensorImpl.resize_and_clear_, hsym, h1, h2, Tensor.resize,
      resizeData, numel]
  · cases hL : self.layout <;>
      simp [SparseCsrTensorImpl.resize_and_clear_, hsym, h1, h2, hL, Tensor.resize,
        resizeData, numel]
  · cases hL : self.layout <;>
    · simp only [SparseCsrTensorImpl.resize_and_clear_, hsym, h1, h2, hL,
        Tensor.resize, Bool.false_eq_true, if_false, ite_false]
      simp only [List.append_assoc, List.singleton_append, List.cons_append]
      rw [getD_at_append _ _ _ _ _ htake.symm]
  · intro hL
    simp [SparseCsrTensorImpl.resize_and_clear_, hsym, h1, h2, hL, Tensor.resize,
      Tensor.zero]
  · intro hL
    simp [SparseCsrTensorImpl.resize_and_clear_, hsym, h1, h2, hL, Tensor.resize,
      Tensor.zero]
  · intro hL
    simp [SparseCsrTensorImpl.resize_and_clear_, hsym, h1, h2, hL, Tensor.resize,
      Tensor.zero, getD_drop_take _ _ 0 (by omega)]
  · intro hL
    simp [SparseCsrTensorImpl.resize_and_clear_, hsym, h1, h2, hL, Tensor.resize,
      Tensor.zero, getD_drop_take _ _ 1 (by omega)]
  · cases hL : self.layout <;>
      simp [SparseCsrTensorImpl.resize_and_clear_, hsym, h1, h2, hL, Tensor.resize,
        Tensor.zero, resizeData_length]

/-- Witness for C3: the spec scenario. Destructive resize with sparse
dimensionality 2 and shape 5 by 5 on the BSR instance with block shape 2 by 2
empties plainIndices and values and zero fills a compressed-index buffer of
length 5 divided by 2, plus one, that is 3. -/
theorem resize_and_clear_clears_witness :
    (egBsr.resize_and_clear_ 2 [5, 5]).1 = none ∧
    (egBsr.resize_and_clear_ 2 [5, 5]).2.col_indices.data = [] ∧
    (egBsr.resize_and_clear_ 2 [5, 5]).2.values.data = [] ∧
    (egBsr.resize_and_clear_ 2 [5, 5]).2.crow_indices.shape = [3] ∧
    (egBsr.resize_and_clear_ 2 [5, 5]).2.crow_indices.data =
      List.replicate 3 (some 0) := by
  have h := resize_and_clear_clears egBsr 2 [5, 5] 0 rfl (by decide) (by decide) rfl
  exact ⟨h.1, h.2.2.1, h.2.2.2.1, h.2.2.2.2.2.2.2.1 rfl, h.2.2.2.2.2.2.2.2.2⟩

/-- C6 (amended): after a destructive resize on a block layout, the new values
buffer has shape batchShape ++ [0] ++ denseTail ++ blockShape: the block
shape, read from the trailing block dimensions of the current values buffer,
is appended after the dense tail, not before it as the data model prescribes;
the claimed order batchShape ++ [0] ++ blockShape ++ denseTail is obtained
only when the dense tail is empty. -/
theorem resize_and_clear_block_values_shape (self : SparseCsrTensorImpl)
    (sparse_dim : Int) (size : List Nat) (bd : Nat)
    (hsym : self.has_symbolic_sizes_strides = false)
    (hsd : 2 ≤ sparse_dim)
    (hlen : sparse_dim ≤ (size.length : Int))
    (hbd : bd = (sparse_dim - 2).toNat)
    (hblock : self.layout = Layout.sparseBsr ∨ self.layout = Layout.sparseBsc) :
    (self.resize_and_clear_ sparse_dim size).2.values.shape =
      size.take bd ++ [0] ++ size.drop (bd + 2) ++
        (self.values.shape.drop (self.batch_dim + 1)).take 2 := by
  subst hbd
  rcases hblock with hL | hL <;>
    simp [SparseCsrTensorImpl.resize_and_clear_, hsym, not_lt.mpr hsd,
      not_lt.mpr hlen, hL, Tensor.resize]

/-- Witness for the amended C6 theorem: on the BSR instance with block shape
2 by 3, a destructive resize to shape 4 by 6 with dense tail 7 yields a values
buffer of shape 0, 7, 2, 3. -/
theorem resize_and_clear_block_values_shape_witness :
    (egBsrDense.resize_and_clear_ 2 [4, 6, 7]).2.values.shape = [0, 7, 2, 3] :=
  resize_and_clear_block_values_shape egBsrDense 2 [4, 6, 7] 0 rfl (by decide)
    (by decide) rfl (Or.inl rfl)

/-- C6 counterexample: the same call succeeds, and its values shape
0, 7, 2, 3 places the dense tail 7 before the block shape 2, 3, not after it
as the claim requires (which would give 0, 2, 3, 7). -/
theorem resize_and_clear_dense_tail_before_block :
    (egBsrDense.resize_and_clear_ 2 [4, 6, 7]).1 = none ∧
    (egBsrDense.resize_and_clear_ 2 [4, 6, 7]).2.values.shape = [0, 7, 2, 3] ∧
    ([0, 7, 2, 3] : List Nat) ≠ [0, 2, 3, 7] := by
  decide

/-- Witness for C9: re-templating the cpu/float32 base instance from the CSC
template adopts its layout, buffer geometry and shape, with fresh content. -/
theorem resize_as_template_matches_source_witness :
    (egBase.resize_as_sparse_csr_tensor_ egSrc).1 = none ∧
    (egBase.resize_as_sparse_csr_tensor_ egSrc).2.layout = Layout.sparseCsc ∧
    (egBase.resize_as_sparse_csr_tensor_ egSrc).2.crow_indices.shape = [4] ∧
    (egBase.resize_as_sparse_csr_tensor_ egSrc).2.crow_indices.data =
      List.replicate 4 none ∧
    (egBase.resize_as_sparse_csr_tensor_ egSrc).2.values.dtype =
      ScalarType.float64 ∧
    (egBase.resize_as_sparse_csr_tensor_ egSrc).2.sizes = [3, 3] := by
  have h := resize_as_template_matches_source egBase egSrc rfl
  exact ⟨h.1, h.2.1, h.2.2.1, h.2.2.2.2.2.1,
    h.2.2.2.2.2.2.2.2.2.2.2.1, h.2.2.2.2.2.2.2.2.2.2.2.2.2.2⟩

end SparseCsr
